import Mathlib

/-!
Shallow embedding of the stoat-backend push-notification core
(`src/crates/core/database/src/amqp/amqp.rs` and
`src/crates/delta/src/routes/channels/channel_activity.rs`), together with
theorems settling the specification claims about it.

The Redis presence store and the AMQP broker channel are modelled as explicit
parameters: a `PresenceStore` records the (possibly failing) results of the
`KEYS` and `SMEMBERS` commands, and a `BrokerChannel` records the outcome that
`basic_publish` reports.  Each entry point returns the list of broker messages
it published together with its `Result` value, so "zero broker calls" is the
published list being empty.
-/

namespace Stoat

/-- Substring test on lists: does the first list occur as a contiguous
infix of the second?  `listStartsWith pat l` checks that `pat` is an initial
segment of `l`. -/
def listStartsWith (pat : List Char) : List Char → Bool :=
  fun l =>
    match pat, l with
    | [], _ => true
    | _ :: _, [] => false
    | p :: ps, x :: xs => p == x && listStartsWith ps xs

/-- Substring occurrence test on character lists, used to model Rust's
`str::contains` with a literal pattern. -/
def listHasSub (pat : List Char) : List Char → Bool
  | [] => listStartsWith pat []
  | x :: xs => listStartsWith pat (x :: xs) || listHasSub pat xs

/-- Model of Rust `String::contains(pat)` for a literal pattern `pat`. -/
def hasSubstr (pat s : String) : Bool :=
  listHasSub pat.data s.data

/-- The `message.content` part of a push notification
(`revolt_models::v0::Message`), abstracted to the one field the core reads. -/
structure PNMessage where
  content : Option String
  deriving DecidableEq

/-- A push notification (`revolt_models::v0::PushNotification`), abstracted to
the fields the publish path reads: the channel (represented by its id, the
value of `payload.channel.id()`), the summary `body`, and the underlying
message. -/
structure PushNotification where
  channel_id : String
  body : String
  message : PNMessage
  deriving DecidableEq

/-- A user record (`crate::User`), abstracted to its id; the fan-out payloads
embed it verbatim and never inspect other fields. -/
structure User where
  id : String
  deriving DecidableEq

/-- The six wire payload variants from `crate::events::rabbit`
(`FRAcceptedPayload`, `FRReceivedPayload`, `GenericPayload`,
`MessageSentPayload`, `MassMessageSentPayload`, `AckPayload`), kept
structurally rather than as serialized JSON text. -/
inductive Payload where
  | frAccepted (accepted_user : User) (user : String)
  | frReceived (from_user : User) (user : String)
  | generic (title : String) (body : String) (icon : Option String) (user : User)
  | messageSent (notification : PushNotification) (users : List String)
  | massMessageSent (notifications : List PushNotification) (server_id : String)
  | ack (user_id : String) (channel_id : String) (message_id : String)
  deriving DecidableEq

/-- The `users` field of a `message_sent` payload, if the payload is of that
variant. -/
def payloadUsers : Payload → Option (List String)
  | .messageSent _ users => some users
  | _ => none

/-- AMQP envelope properties (`amqprs::BasicProperties`), restricted to the
fields the core sets: content type, persistence flag and headers. -/
structure BasicProperties where
  contentType : Option String
  persistent : Bool
  headers : List (String × String)
  deriving DecidableEq

/-- `BasicProperties::default()`: no content type, not persistent, no
headers. -/
def BasicProperties.default : BasicProperties :=
  { contentType := none, persistent := false, headers := [] }

/-- `BasicProperties::with_content_type`. -/
def BasicProperties.with_content_type (p : BasicProperties) (c : String) : BasicProperties :=
  { p with contentType := some c }

/-- `BasicProperties::with_persistence`. -/
def BasicProperties.with_persistence (p : BasicProperties) (b : Bool) : BasicProperties :=
  { p with persistent := b }

/-- `BasicProperties::with_headers` (present in the amqprs API; the one call
site in `ack_message` is commented out in the source). -/
def BasicProperties.with_headers (p : BasicProperties) (h : List (String × String)) :
    BasicProperties :=
  { p with headers := h }

/-- `amqprs::channel::BasicPublishArguments`: target exchange and routing
key. -/
structure BasicPublishArguments where
  exchange : String
  routingKey : String
  deriving DecidableEq

/-- One observed broker publish: the envelope properties, the structured
payload, and the publish arguments. -/
structure PublishedMessage where
  props : BasicProperties
  payload : Payload
  exchange : String
  routingKey : String
  deriving DecidableEq

/-- Abstract AMQP transport error (`amqprs::error::Error`). -/
inductive AMQPError where
  | transport
  deriving DecidableEq

/-- The broker channel, modelled by the outcome its `basic_publish` reports. -/
structure BrokerChannel where
  publishResult : Except AMQPError Unit

/-- `Channel::basic_publish`: records the published message and returns the
channel's outcome. -/
def BrokerChannel.basic_publish (ch : BrokerChannel) (props : BasicProperties)
    (payload : Payload) (args : BasicPublishArguments) :
    List PublishedMessage × Except AMQPError Unit :=
  ([{ props := props, payload := payload,
      exchange := args.exchange, routingKey := args.routingKey }],
   ch.publishResult)

/-- The per-event-kind routing configuration (`config.pushd`): the exchange
name, one routing key per event kind, and the ack queue name. -/
structure PushdConfig where
  exchange : String
  fr_accepted_routing_key : String
  fr_received_routing_key : String
  generic_routing_key : String
  message_routing_key : String
  mass_mention_routing_key : String
  ack_queue : String

/-- The Redis presence store as seen by `filter_viewers`: whether a connection
can be obtained, and the result of each `KEYS pattern` and `SMEMBERS key`
command (`none` models a failed command). -/
structure PresenceStore where
  connOk : Bool
  keysCmd : String → Option (List String)
  smembersCmd : String → Option (List String)

/-- The key pattern `format!("open_channels:{}:*", user_id)` used to enumerate
a user's session keys. -/
def sessionPattern (user_id : String) : String :=
  "open_channels:" ++ user_id ++ ":*"

/-- Inner loop body of `filter_viewers`: does the set stored at `k` contain
`channel_id`?  A failed `SMEMBERS` (`continue` in the source) counts as no. -/
def keyHasChannel (store : PresenceStore) (channel_id k : String) : Bool :=
  match store.smembersCmd k with
  | none => false
  | some members => members.contains channel_id

/-- Per-user loop body of `filter_viewers`: some session key of `user_id` has
`channel_id` open.  A failed `KEYS` command (`continue` in the source) counts
as no; the `break` on first hit is `List.any`. -/
def userIsViewer (store : PresenceStore) (channel_id user_id : String) : Bool :=
  match store.keysCmd (sessionPattern user_id) with
  | none => false
  | some keys => keys.any (fun k => keyHasChannel store channel_id k)

/-- `filter_viewers(recipients, channel_id)`: the set of recipients currently
viewing the channel.  If no Redis connection can be obtained the function
returns the empty set. -/
def filter_viewers (store : PresenceStore) (recipients : List String)
    (channel_id : String) : Finset String :=
  if store.connOk then
    (recipients.filter (fun u => userIsViewer store channel_id u)).toFinset
  else ∅

/-- The recipient set left after removing active viewers, as computed in
`message_sent`: `recipients.into_iter().collect::<HashSet<_>>() - &viewer_ids`. -/
def presenceFilter (store : PresenceStore) (recipients : List String)
    (channel_id : String) : Finset String :=
  recipients.toFinset \ filter_viewers store recipients channel_id

/-- The spoiler condition from `message_sent`: the body contains `[[` or
`\[\[`, and contains `]]` or `\]\]`. -/
def spoilerCond (s : String) : Bool :=
  (hasSubstr "[[" s || hasSubstr "\\[\\[" s) && (hasSubstr "]]" s || hasSubstr "\\]\\]" s)

/-- The fixed placeholder `"(스포일러)"` substituted for spoiler-marked
bodies. -/
def spoilerPlaceholder : String :=
  "(스포일러)"

/-- Whole-body spoiler redaction as performed in `message_sent`: if the
spoiler condition holds the body becomes the placeholder, otherwise it is
unchanged. -/
def redact (s : String) : String :=
  if spoilerCond s then spoilerPlaceholder else s

/-- The spoiler handling block of `message_sent`: redaction applied to
`payload.body` and, when present, to `payload.message.content`. -/
def redactNotification (p : PushNotification) : PushNotification :=
  { p with
    body := redact p.body
    message := { content := p.message.content.map redact } }

/-- The AMQP handle (`AMQP { connection, channel }`); the unused connection
field is dropped. -/
structure AMQP where
  channel : BrokerChannel

/-- `AMQP::friend_request_accepted`. -/
def AMQP.friend_request_accepted (self : AMQP) (config : PushdConfig)
    (accepted_request_user sent_request_user : User) :
    List PublishedMessage × Except AMQPError Unit :=
  let payload := Payload.frAccepted accepted_request_user sent_request_user.id
  self.channel.basic_publish
    ((BasicProperties.default.with_content_type "application/json").with_persistence true)
    payload
    { exchange := config.exchange, routingKey := config.fr_accepted_routing_key }

/-- `AMQP::friend_request_received`. -/
def AMQP.friend_request_received (self : AMQP) (config : PushdConfig)
    (received_request_user sent_request_user : User) :
    List PublishedMessage × Except AMQPError Unit :=
  let payload := Payload.frReceived sent_request_user received_request_user.id
  self.channel.basic_publish
    ((BasicProperties.default.with_content_type "application/json").with_persistence true)
    payload
    { exchange := config.exchange, routingKey := config.fr_received_routing_key }

/-- `AMQP::generic_message`. -/
def AMQP.generic_message (self : AMQP) (config : PushdConfig) (user : User)
    (title body : String) (icon : Option String) :
    List PublishedMessage × Except AMQPError Unit :=
  let payload := Payload.generic title body icon user
  self.channel.basic_publish
    ((BasicProperties.default.with_content_type "application/json").with_persistence true)
    payload
    { exchange := config.exchange, routingKey := config.generic_routing_key }

/-- `AMQP::message_sent`.  Mirrors the source order: empty-recipient early
return, spoiler redaction, payload construction from the *original* recipient
list, then viewer filtering, the all-viewers early return, and finally the
publish. -/
def AMQP.message_sent (self : AMQP) (config : PushdConfig) (store : PresenceStore)
    (recipients : List String) (payload : PushNotification) :
    List PublishedMessage × Except AMQPError Unit :=
  if recipients.isEmpty then ([], Except.ok ())
  else
    let channel_id := payload.channel_id
    let notification := redactNotification payload
    let sentPayload := Payload.messageSent notification recipients
    let remaining := presenceFilter store recipients channel_id
    if remaining = ∅ then ([], Except.ok ())
    else
      self.channel.basic_publish
        ((BasicProperties.default.with_content_type "application/json").with_persistence true)
        sentPayload
        { exchange := config.exchange, routingKey := config.message_routing_key }

/-- `AMQP::mass_mention_message_sent`. -/
def AMQP.mass_mention_message_sent (self : AMQP) (config : PushdConfig)
    (server_id : String) (payload : List PushNotification) :
    List PublishedMessage × Except AMQPError Unit :=
  let sentPayload := Payload.massMessageSent payload server_id
  self.channel.basic_publish
    ((BasicProperties.default.with_content_type "application/json").with_persistence true)
    sentPayload
    { exchange := config.exchange, routingKey := config.mass_mention_routing_key }

/-- The deduplication headers computed in `ack_message`:
`x-deduplication-header = format!("{}-{}", user_id, channel_id)`. -/
def ackDedupHeaders (user_id channel_id : String) : List (String × String) :=
  [("x-deduplication-header", user_id ++ "-" ++ channel_id)]

/-- `AMQP::ack_message`.  The headers are computed as in the source, but the
`.with_headers(headers)` call is commented out there, so the published
properties carry no headers. -/
def AMQP.ack_message (self : AMQP) (config : PushdConfig)
    (user_id channel_id message_id : String) :
    List PublishedMessage × Except AMQPError Unit :=
  let payload := Payload.ack user_id channel_id message_id
  let _headers := ackDedupHeaders user_id channel_id
  self.channel.basic_publish
    ((BasicProperties.default.with_content_type "application/json").with_persistence true)
    payload
    { exchange := config.exchange, routingKey := config.ack_queue }

/-- The user has a session record whose channel set contains the channel:
some key returned for `open_channels:{user_id}:*` holds a readable set
containing `channel_id`. -/
def hasViewingRecord (store : PresenceStore) (channel_id user_id : String) : Prop :=
  ∃ ks, store.keysCmd (sessionPattern user_id) = some ks ∧
    ∃ k ∈ ks, ∃ m, store.smembersCmd k = some m ∧ channel_id ∈ m

/-- Example routing configuration used for concrete witnesses. -/
def exampleConfig : PushdConfig :=
  { exchange := "revolt.notifications"
    fr_accepted_routing_key := "fr_accepted"
    fr_received_routing_key := "fr_received"
    generic_routing_key := "generic"
    message_routing_key := "message_sent"
    mass_mention_routing_key := "mass_mention"
    ack_queue := "ack" }

/-- Example broker channel whose publishes succeed. -/
def exampleChannel : BrokerChannel := { publishResult := Except.ok () }

/-- Example AMQP handle over `exampleChannel`. -/
def exampleAMQP : AMQP := { channel := exampleChannel }

/-- Example presence store: only user `u2` has a session record, and that
record has channel `c9` open. -/
def exampleStore : PresenceStore where
  connOk := true
  keysCmd := fun p => if p = sessionPattern "u2" then some ["open_channels:u2:s1"] else some []
  smembersCmd := fun k => if k = "open_channels:u2:s1" then some ["c9"] else some []

/-- Example presence store whose connection cannot be obtained. -/
def downStore : PresenceStore where
  connOk := false
  keysCmd := fun _ => none
  smembersCmd := fun _ => none

/-- Channel activity signal (`ChannelActivityType`). -/
inductive ChannelActivityType where
  | Open
  | Close

/-- The Redis state seen by the presence write path: the set stored at each
key and the key's remaining TTL in seconds (`none` when no TTL is set). -/
structure RedisState where
  sets : String → Finset String
  ttl : String → Option Nat

/-- The session key `format!("open_channels:{}:{}", user_id, session_id)`. -/
def sessionKey (user_id session_id : String) : String :=
  "open_channels:" ++ user_id ++ ":" ++ session_id

/-- `update_channel_activity_in_redis` (success path): `Open` runs
`SADD session_key channel_id` followed by `EXPIRE session_key 300`; `Close`
runs `SREM session_key channel_id` and touches no TTL. -/
def update_channel_activity_in_redis (st : RedisState)
    (user_id session_id channel_id : String)
    (activity_type : ChannelActivityType) : RedisState :=
  let session_key := sessionKey user_id session_id
  match activity_type with
  | ChannelActivityType.Open =>
      { sets := fun k => if k = session_key then insert channel_id (st.sets k) else st.sets k
        ttl := fun k => if k = session_key then some 300 else st.ttl k }
  | ChannelActivityType.Close =>
      { sets := fun k => if k = session_key then (st.sets k).erase channel_id else st.sets k
        ttl := st.ttl }

/-- Envelope invariant: JSON content type, persistence on, and the configured
exchange and routing key. -/
def envelopeOk (config : PushdConfig) (routing_key : String) (m : PublishedMessage) : Prop :=
  m.props.contentType = some "application/json" ∧ m.props.persistent = true ∧
    m.exchange = config.exchange ∧ m.routingKey = routing_key

/-- Presence store where both `u1` and `u2` have a session viewing `c9`. -/
def bothViewStore : PresenceStore where
  connOk := true
  keysCmd := fun p =>
    if p = sessionPattern "u1" then some ["open_channels:u1:s1"]
    else if p = sessionPattern "u2" then some ["open_channels:u2:s1"]
    else some []
  smembersCmd := fun k =>
    if k = "open_channels:u1:s1" then some ["c9"]
    else if k = "open_channels:u2:s1" then some ["c9"]
    else some []

/-- Example push notification targeting channel `c9`, without spoilers. -/
def examplePN : PushNotification :=
  { channel_id := "c9", body := "hello", message := { content := none } }

theorem keyHasChannel_iff (store : PresenceStore) (c k : String) :
    keyHasChannel store c k = true ↔ ∃ m, store.smembersCmd k = some m ∧ c ∈ m := by
  unfold keyHasChannel
  cases h : store.smembersCmd k <;> simp [h, List.contains, List.elem_iff]

theorem userIsViewer_iff (store : PresenceStore) (c u : String) :
    userIsViewer store c u = true ↔ hasViewingRecord store c u := by
  unfold userIsViewer hasViewingRecord
  cases h : store.keysCmd (sessionPattern u) <;>
    simp [h, List.any_eq_true, keyHasChannel_iff]

theorem mem_filter_viewers (store : PresenceStore) (R : List String) (c u : String) :
    u ∈ filter_viewers store R c ↔
      store.connOk = true ∧ u ∈ R ∧ hasViewingRecord store c u := by
  unfold filter_viewers
  by_cases hc : store.connOk <;>
    simp [hc, List.mem_toFinset, List.mem_filter, userIsViewer_iff]

theorem mem_presenceFilter (store : PresenceStore) (R : List String) (c u : String) :
    u ∈ presenceFilter store R c ↔
      u ∈ R ∧ ¬ (store.connOk = true ∧ hasViewingRecord store c u) := by
  unfold presenceFilter
  simp only [Finset.mem_sdiff, List.mem_toFinset, mem_filter_viewers]
  tauto

theorem presenceFilter_empty_iff (store : PresenceStore) (R : List String) (c : String) :
    presenceFilter store R c = ∅ ↔ ∀ u ∈ R, u ∈ filter_viewers store R c := by
  unfold presenceFilter
  rw [Finset.sdiff_eq_empty_iff_subset]
  constructor
  · intro h u hu
    exact h (List.mem_toFinset.mpr hu)
  · intro h u hu
    exact h u (List.mem_toFinset.mp hu)

theorem message_sent_cases (self : AMQP) (config : PushdConfig) (store : PresenceStore)
    (recipients : List String) (payload : PushNotification) :
    (self.message_sent config store recipients payload = ([], Except.ok ()) ∧
      (recipients = [] ∨ presenceFilter store recipients payload.channel_id = ∅)) ∨
    (recipients ≠ [] ∧ presenceFilter store recipients payload.channel_id ≠ ∅ ∧
      self.message_sent config store recipients payload =
        ([{ props :=
              (BasicProperties.default.with_content_type "application/json").with_persistence
                true
            payload := Payload.messageSent (redactNotification payload) recipients
            exchange := config.exchange
            routingKey := config.message_routing_key }],
         self.channel.publishResult)) := by
  unfold AMQP.message_sent
  by_cases he : recipients.isEmpty
  · exact Or.inl ⟨by simp [he], Or.inl (List.isEmpty_iff.mp he)⟩
  · by_cases hr : presenceFilter store recipients payload.channel_id = ∅
    · exact Or.inl ⟨by simp [he, hr], Or.inr hr⟩
    · refine Or.inr ⟨fun h => he (by simp [h]), hr, ?_⟩
      simp [he, hr, BrokerChannel.basic_publish]

/-- C1 counterexample: with recipients `["u1","u2","u3"]` and only `u2`
actively viewing channel `c9`, the published `message_sent` payload's `users`
field is the full recipient list `["u1","u2","u3"]`, whose set differs from
the recipient set minus the active viewers — the payload is serialized before
the viewer filter runs. -/
theorem C1_counterexample :
    "u2" ∈ filter_viewers exampleStore ["u1", "u2", "u3"] "c9" ∧
    ((exampleAMQP.message_sent exampleConfig exampleStore ["u1", "u2", "u3"] examplePN).1.map
        (fun m => payloadUsers m.payload)) = [some ["u1", "u2", "u3"]] ∧
    (["u1", "u2", "u3"] : List String).toFinset ≠
      presenceFilter exampleStore ["u1", "u2", "u3"] "c9" := by
  refine ⟨by decide, by decide, by decide⟩

/-- C1 (amended): whenever at least one recipient survives the viewer filter,
the published `message_sent` payload's `users` field equals the full original
recipient list, active viewers included. -/
theorem C1_amended_users_full_list (self : AMQP) (config : PushdConfig)
    (store : PresenceStore) (recipients : List String) (payload : PushNotification)
    (h : presenceFilter store recipients payload.channel_id ≠ ∅) :
    (self.message_sent config store recipients payload).1.map
        (fun m => payloadUsers m.payload) = [some recipients] := by
  rcases message_sent_cases self config store recipients payload with ⟨heq, hcase⟩ | ⟨hne, hr, heq⟩
  · rcases hcase with hc | hc
    · exact absurd (by rw [hc]; simp [presenceFilter]) h
    · exact absurd hc h
  · rw [heq]
    rfl

/-- C1 witness: the amended statement at the scenario input. -/
theorem C1_amended_witness :
    ((exampleAMQP.message_sent exampleConfig exampleStore ["u1", "u2", "u3"] examplePN).1.map
        (fun m => payloadUsers m.payload)) = [some ["u1", "u2", "u3"]] :=
  C1_amended_users_full_list exampleAMQP exampleConfig exampleStore ["u1", "u2", "u3"] examplePN
    (by decide)

/-- C2 counterexample: the `ack_message` publish for `u1`/`c1` carries no
headers at all — in particular not `x-deduplication-header = "u1-c1"` — since
the `.with_headers` call is commented out in the source. -/
theorem C2_counterexample :
    ((exampleAMQP.ack_message exampleConfig "u1" "c1" "m1").1.map
        (fun m => m.props.headers)) = [[]] ∧
    ¬ ∃ m ∈ (exampleAMQP.ack_message exampleConfig "u1" "c1" "m1").1,
        ("x-deduplication-header", "u1-c1") ∈ m.props.headers := by
  exact ⟨rfl, by decide⟩

/-- C2 (amended): `ack_message` computes the deduplication value
`user_id ++ "-" ++ channel_id` under the key `x-deduplication-header`, but the
published broker message carries an empty header table. -/
theorem C2_amended_dedup (self : AMQP) (config : PushdConfig) (uid cid mid : String) :
    ackDedupHeaders uid cid = [("x-deduplication-header", uid ++ "-" ++ cid)] ∧
    ((self.ack_message config uid cid mid).1.map (fun m => m.props.headers)) = [[]] :=
  ⟨rfl, rfl⟩

/-- C3: `message_sent` returns `Ok` with zero broker publishes exactly when
the recipient list is empty or every recipient is an active viewer of the
channel. -/
theorem C3_no_send_cases (self : AMQP) (config : PushdConfig) (store : PresenceStore)
    (recipients : List String) (payload : PushNotification) :
    ((self.message_sent config store recipients payload).1 = [] ∧
     (self.message_sent config store recipients payload).2 = Except.ok ()) ↔
    (recipients = [] ∨
      ∀ u ∈ recipients, u ∈ filter_viewers store recipients payload.channel_id) := by
  rcases message_sent_cases self config store recipients payload with ⟨heq, hcase⟩ | ⟨hne, hr, heq⟩
  · constructor
    · intro _
      rcases hcase with h | h
      · exact Or.inl h
      · exact Or.inr ((presenceFilter_empty_iff _ _ _).mp h)
    · intro _
      rw [heq]
      exact ⟨rfl, rfl⟩
  · constructor
    · intro h
      rw [heq] at h
      exact absurd h.1 (by simp)
    · intro h
      exfalso
      rcases h with h | h
      · exact hne h
      · exact hr ((presenceFilter_empty_iff _ _ _).mpr h)

/-- C3 witness: with both recipients actively viewing, `message_sent` returns
success and performs zero broker calls. -/
theorem C3_witness :
    (exampleAMQP.message_sent exampleConfig bothViewStore ["u1", "u2"] examplePN).1 = [] ∧
    (exampleAMQP.message_sent exampleConfig bothViewStore ["u1", "u2"] examplePN).2 =
      Except.ok () :=
  (C3_no_send_cases exampleAMQP exampleConfig bothViewStore ["u1", "u2"] examplePN).mpr
    (Or.inr (by decide))

/-- C4: with a reachable store, the post-filter recipient set contains exactly
the recipients without a session record (a key matching
`open_channels:{user_id}:*`) whose channel set contains the channel. -/
theorem C4_filter_exact (store : PresenceStore) (recipients : List String)
    (channel_id : String) (hconn : store.connOk = true) (u : String) :
    u ∈ presenceFilter store recipients channel_id ↔
      u ∈ recipients ∧ ¬ hasViewingRecord store channel_id u := by
  rw [mem_presenceFilter]
  simp [hconn]

/-- C4 witness: the characterization at a concrete store and recipient. -/
theorem C4_witness :
    ("u1" ∈ presenceFilter exampleStore ["u1", "u2"] "c9" ↔
      "u1" ∈ ["u1", "u2"] ∧ ¬ hasViewingRecord exampleStore "c9" "u1") :=
  C4_filter_exact exampleStore ["u1", "u2"] "c9" rfl "u1"

/-- C5: a body containing an opening marker and a closing marker (plain or
escaped, anywhere) redacts to the fixed placeholder; a body with no closing
marker is unmodified; plain and escaped spoiler bodies redact identically;
`message_sent` applies the rule independently to the notification body and to
the message content when present. -/
theorem C5_spoiler_redaction :
    (∀ b : String, (hasSubstr "[[" b = true ∨ hasSubstr "\\[\\[" b = true) →
        (hasSubstr "]]" b = true ∨ hasSubstr "\\]\\]" b = true) →
        redact b = spoilerPlaceholder) ∧
    (∀ b : String, hasSubstr "]]" b = false → hasSubstr "\\]\\]" b = false → redact b = b) ∧
    redact "[[" = "[[" ∧
    redact "[[spoiler]]" = spoilerPlaceholder ∧
    redact "\\[\\[spoiler\\]\\]" = spoilerPlaceholder ∧
    (∀ p : PushNotification, (redactNotification p).body = redact p.body ∧
        (redactNotification p).message.content = p.message.content.map redact) := by
  refine ⟨?_, ?_, by decide, by decide, by decide, fun p => ⟨rfl, rfl⟩⟩
  · intro b h1 h2
    unfold redact spoilerCond
    have e1 : (hasSubstr "[[" b || hasSubstr "\\[\\[" b) = true := by
      rcases h1 with h | h <;> simp [h]
    have e2 : (hasSubstr "]]" b || hasSubstr "\\]\\]" b) = true := by
      rcases h2 with h | h <;> simp [h]
    simp [e1, e2]
  · intro b h1 h2
    unfold redact spoilerCond
    simp [h1, h2]

/-- C5 witness: a body with both markers redacts to the placeholder. -/
theorem C5_witness : redact "ab[[cd]]ef" = spoilerPlaceholder :=
  C5_spoiler_redaction.1 "ab[[cd]]ef" (Or.inl (by decide)) (Or.inl (by decide))

/-- C6: redaction is idempotent — the placeholder is a fixed point, and
`redact (redact b) = redact b` for every body. -/
theorem C6_redact_idempotent :
    redact spoilerPlaceholder = spoilerPlaceholder ∧
    ∀ b : String, redact (redact b) = redact b := by
  have hp : redact spoilerPlaceholder = spoilerPlaceholder := by decide
  refine ⟨hp, fun b => ?_⟩
  by_cases h : spoilerCond b
  · have hb : redact b = spoilerPlaceholder := by rw [redact, if_pos h]
    rw [hb, hp]
  · have hb : redact b = b := by rw [redact, if_neg h]
    rw [hb, hb]

/-- C7: with the store unreachable the filter returns the recipient set
unchanged and `message_sent` still publishes (one broker call, the broker's
own result, no error from the store); a failed per-recipient `KEYS` lookup
defaults that recipient to not-viewing, and each recipient's outcome depends
only on its own session records. -/
theorem C7_fail_open (store : PresenceStore) (R : List String) (c : String) :
    (store.connOk = false →
      presenceFilter store R c = R.toFinset ∧
      ∀ (self : AMQP) (config : PushdConfig) (payload : PushNotification),
        payload.channel_id = c → R ≠ [] →
          (self.message_sent config store R payload).1.length = 1 ∧
          (self.message_sent config store R payload).2 = self.channel.publishResult) ∧
    (∀ u, store.keysCmd (sessionPattern u) = none →
      (u ∈ presenceFilter store R c ↔ u ∈ R)) ∧
    (∀ u, u ∈ presenceFilter store R c ↔
      u ∈ R ∧ ¬ (store.connOk = true ∧ hasViewingRecord store c u)) := by
  refine ⟨fun hconn => ?_, fun u hk => ?_, fun u => mem_presenceFilter store R c u⟩
  · have hfv : filter_viewers store R c = ∅ := by
      unfold filter_viewers
      simp [hconn]
    have hpf : presenceFilter store R c = R.toFinset := by
      unfold presenceFilter
      rw [hfv, Finset.sdiff_empty]
    refine ⟨hpf, fun self config payload hc hne => ?_⟩
    rcases message_sent_cases self config store R payload with ⟨heq, hcase⟩ | ⟨_, _, heq⟩
    · exfalso
      rcases hcase with h | h
      · exact hne h
      · rw [hc, hpf] at h
        exact hne ((List.toFinset_eq_empty_iff R).mp h)
    · rw [heq]
      exact ⟨rfl, rfl⟩
  · rw [mem_presenceFilter]
    have : ¬ hasViewingRecord store c u := by
      rintro ⟨ks, hks, -⟩
      rw [hk] at hks
      exact Option.noConfusion hks
    tauto

/-- C7 witness: fail-open at a concrete unreachable store. -/
theorem C7_witness :
    presenceFilter downStore ["u1", "u2"] "c9" = (["u1", "u2"] : List String).toFinset ∧
    (exampleAMQP.message_sent exampleConfig downStore ["u1", "u2"] examplePN).1.length = 1 :=
  ⟨((C7_fail_open downStore ["u1", "u2"] "c9").1 rfl).1,
   (((C7_fail_open downStore ["u1", "u2"] "c9").1 rfl).2 exampleAMQP exampleConfig examplePN rfl
      (by decide)).1⟩

/-- C8: presence writes target `open_channels:{user_id}:{session_id}`; an
`Open` signal adds the channel to that session's set and sets the key's TTL to
300 seconds, while a `Close` signal removes the channel and leaves every TTL
untouched. -/
theorem C8_presence_write (st : RedisState) (uid sid cid : String) :
    sessionKey uid sid = "open_channels:" ++ uid ++ ":" ++ sid ∧
    (update_channel_activity_in_redis st uid sid cid ChannelActivityType.Open).sets
        (sessionKey uid sid) = insert cid (st.sets (sessionKey uid sid)) ∧
    (update_channel_activity_in_redis st uid sid cid ChannelActivityType.Open).ttl
        (sessionKey uid sid) = some 300 ∧
    (update_channel_activity_in_redis st uid sid cid ChannelActivityType.Close).sets
        (sessionKey uid sid) = (st.sets (sessionKey uid sid)).erase cid ∧
    (update_channel_activity_in_redis st uid sid cid ChannelActivityType.Close).ttl =
      st.ttl := by
  refine ⟨rfl, ?_, ?_, ?_, rfl⟩ <;> simp [update_channel_activity_in_redis]

/-- C9: every broker publish performed by the six event operations sets the
content type to `application/json` and persistence to on, and targets the
configured exchange with the routing key configured for its event kind. -/
theorem C9_envelope (self : AMQP) (config : PushdConfig) :
    (∀ au su : User, ∀ m ∈ (self.friend_request_accepted config au su).1,
        envelopeOk config config.fr_accepted_routing_key m) ∧
    (∀ ru su : User, ∀ m ∈ (self.friend_request_received config ru su).1,
        envelopeOk config config.fr_received_routing_key m) ∧
    (∀ (u : User) (title body : String) (icon : Option String),
        ∀ m ∈ (self.generic_message config u title body icon).1,
        envelopeOk config config.generic_routing_key m) ∧
    (∀ (store : PresenceStore) (recipients : List String) (payload : PushNotification),
        ∀ m ∈ (self.message_sent config store recipients payload).1,
        envelopeOk config config.message_routing_key m) ∧
    (∀ (server_id : String) (notifications : List PushNotification),
        ∀ m ∈ (self.mass_mention_message_sent config server_id notifications).1,
        envelopeOk config config.mass_mention_routing_key m) ∧
    (∀ uid cid mid : String, ∀ m ∈ (self.ack_message config uid cid mid).1,
        envelopeOk config config.ack_queue m) := by
  refine ⟨?_, ?_, ?_, ?_, ?_, ?_⟩
  · intro au su m hm
    simp only [AMQP.friend_request_accepted, BrokerChannel.basic_publish,
      List.mem_singleton] at hm
    subst hm
    exact ⟨rfl, rfl, rfl, rfl⟩
  · intro ru su m hm
    simp only [AMQP.friend_request_received, BrokerChannel.basic_publish,
      List.mem_singleton] at hm
    subst hm
    exact ⟨rfl, rfl, rfl, rfl⟩
  · intro u title body icon m hm
    simp only [AMQP.generic_message, BrokerChannel.basic_publish, List.mem_singleton] at hm
    subst hm
    exact ⟨rfl, rfl, rfl, rfl⟩
  · intro store recipients payload m hm
    rcases message_sent_cases self config store recipients payload with ⟨heq, _⟩ | ⟨_, _, heq⟩
    · rw [heq] at hm
      exact absurd hm (List.not_mem_nil m)
    · rw [heq] at hm
      rw [List.mem_singleton.mp hm]
      exact ⟨rfl, rfl, rfl, rfl⟩
  · intro server_id notifications m hm
    simp only [AMQP.mass_mention_message_sent, BrokerChannel.basic_publish,
      List.mem_singleton] at hm
    subst hm
    exact ⟨rfl, rfl, rfl, rfl⟩
  · intro uid cid mid m hm
    simp only [AMQP.ack_message, BrokerChannel.basic_publish, List.mem_singleton] at hm
    subst hm
    exact ⟨rfl, rfl, rfl, rfl⟩

/-- C9 witness: the envelope invariant for the concrete ack publish. -/
theorem C9_witness :
    envelopeOk exampleConfig exampleConfig.ack_queue
      { props := { contentType := some "application/json", persistent := true, headers := [] }
        payload := Payload.ack "u1" "c1" "m1"
        exchange := exampleConfig.exchange
        routingKey := exampleConfig.ack_queue } :=
  (C9_envelope exampleAMQP exampleConfig).2.2.2.2.2 "u1" "c1" "m1" _ (by decide)

/-- C10: `mass_mention_message_sent` publishes unconditionally — for every
input, including an empty notifications list, it performs exactly one broker
publish carrying the mass-mention payload and returns the broker's result. -/
theorem C10_mass_mention_unconditional (self : AMQP) (config : PushdConfig)
    (server_id : String) (notifications : List PushNotification) :
    (self.mass_mention_message_sent config server_id notifications).1.length = 1 ∧
    (self.mass_mention_message_sent config server_id notifications).1.map
        (fun m => m.payload) = [Payload.massMessageSent notifications server_id] ∧
    (self.mass_mention_message_sent config server_id notifications).2 =
      self.channel.publishResult :=
  ⟨rfl, rfl, rfl⟩

end Stoat
